import Mathlib

/-!
Shallow embedding of the `wolfssl` Rust crate's context/session lifecycle
and configuration layer (`src/lib.rs`, `src/context.rs`).

The native engine (`wolfssl_sys`) is external: every wrapper function that
makes a native call is parametrized by the status code (or handle pointer)
that the native call returns, and additionally produces the list of native
calls it issued, so that dispatch and "no native call happens" facts are
provable.  Raw pointers are modelled as `Nat` with `0` playing the role of
the null pointer.  Rust `Option`/`Result` become Lean `Option`/`Except`;
a Rust `panic!` branch is modelled as the `none` of an outer `Option`.
-/

/-- WOLFSSL_SUCCESS from the wolfssl C headers, via the `wolfssl_sys`
bindings (external to this repository). -/
def WOLFSSL_SUCCESS : Int := 1

/-- WOLFSSL_FILETYPE_PEM from the wolfssl C headers (external). -/
def WOLFSSL_FILETYPE_PEM : Int := 1

/-- WOLFSSL_FILETYPE_ASN1 from the wolfssl C headers (external). -/
def WOLFSSL_FILETYPE_ASN1 : Int := 2

/-- BAD_MUTEX_E from the wolfssl C headers (external).  Only its
distinctness from the other codes matters for the wrapper's match. -/
def BAD_MUTEX_E : Int := -106

/-- WC_INIT_E from the wolfssl C headers (external).  Only its
distinctness from the other codes matters for the wrapper's match. -/
def WC_INIT_E : Int := -229

/-- Modelled from the spec: the protocol variant enumeration (`WolfMethod`)
is declared in the crate's `lib.rs`, which is not part of the provided
sources beyond `wolf_init`/`wolf_cleanup`; the spec lists "TLS client, TLS
server, DTLS client, DTLS server, DTLS 1.2 client, DTLS 1.2 server", and
`context.rs` pattern-matches on `DtlsClientV1_2`/`DtlsServerV1_2`. -/
inductive WolfMethod
  | TlsClient
  | TlsServer
  | DtlsClient
  | DtlsServer
  | DtlsClientV1_2
  | DtlsServerV1_2
deriving DecidableEq, Repr

/-- A filesystem path (`&std::path::Path`) as far as this layer inspects
it: `str` is the result of `path.to_str()` (`none` when the path is not
representable as UTF-8 text), `isDir` the result of `path.is_dir()`. -/
structure FsPath where
  str : Option String
  isDir : Bool
deriving DecidableEq, Repr

/-- Whether a string contains a NUL character; `std::ffi::CString::new`
fails exactly on such strings. -/
def containsNul (s : String) : Bool :=
  s.data.any fun c => c = Char.ofNat 0

/-- Model of `std::ffi::CString::new`: succeeds (with the same text)
unless the string contains a NUL character. -/
def cstring_new (s : String) : Option String :=
  if containsNul s then none else some s

/-- Model of the composite `CString::new(path.to_str()?).ok()?` used by the
builder's file-taking steps: the C text of a path, when representable. -/
def pathCString (p : FsPath) : Option String :=
  p.str.bind cstring_new

/-- `RootCertificate` input union (declared in the crate's `lib.rs`;
constructors as used by `context.rs` and listed in the spec). -/
inductive RootCertificate
  | Asn1Buffer (buf : List Nat)
  | PemBuffer (buf : List Nat)
  | PemFileOrDirectory (path : FsPath)
deriving DecidableEq, Repr

/-- `Secret` input union (declared in the crate's `lib.rs`; constructors
as used by `context.rs` and listed in the spec). -/
inductive Secret
  | Asn1Buffer (buf : List Nat)
  | Asn1File (path : FsPath)
  | PemBuffer (buf : List Nat)
  | PemFile (path : FsPath)
deriving DecidableEq, Repr

/-- Modelled from the spec: `WolfInitError` lives in the crate's
`errors.rs`, which is not among the provided sources; `lib.rs` uses the
variants `Mutex` and `WolfCrypt`, matching the spec's `MutexError` and
`CryptoSubsystemError`. -/
inductive WolfInitError
  | Mutex
  | WolfCrypt
deriving DecidableEq, Repr

/-- Modelled from the spec: `WolfCleanupError` lives in the crate's
`errors.rs` (not provided); `lib.rs` uses its `Mutex` variant. -/
inductive WolfCleanupError
  | Mutex
deriving DecidableEq, Repr

/-- Modelled from the spec: `LoadRootCertificateError` lives in the
crate's `errors.rs` (not provided).  `context.rs` uses a `Path` variant
for unrepresentable path text and `LoadRootCertificateError::from(result)`
for a native non-success code; the spec calls the latter "a named error
carrying a native diagnostic code", modelled here as `NativeError`. -/
inductive LoadRootCertificateError
  | Path
  | NativeError (code : Int)
deriving DecidableEq, Repr

/-- The native calls this layer can issue against a context handle
(the capability set of spec §6, with the concrete `wolfssl_sys` names). -/
inductive NativeCall
  | loadVerifyBuffer (ctx : Nat) (buf : List Nat) (len : Int) (format : Int)
  | loadVerifyLocations (ctx : Nat) (file : Option String) (dir : Option String)
  | setCipherList (ctx : Nat) (list : String)
  | useCertificateBuffer (ctx : Nat) (buf : List Nat) (len : Int) (format : Int)
  | useCertificateFile (ctx : Nat) (file : String) (format : Int)
  | usePrivateKeyBuffer (ctx : Nat) (buf : List Nat) (len : Int) (format : Int)
  | usePrivateKeyFile (ctx : Nat) (file : String) (format : Int)
  | useSecureRenegotiation (ctx : Nat)
  | sslNew (ctx : Nat)
deriving DecidableEq, Repr

/-- An observable side effect of a wrapper function: a native call, or the
`log::warn!` emitted by `with_secure_renegotiation` off DTLS 1.2. -/
inductive Effect
  | call (c : NativeCall)
  | warnLog
deriving DecidableEq, Repr

/-- `WolfContext` (context.rs): the shared native context handle (the
`Arc<Mutex<*mut WOLFSSL_CTX>>` target, modelled by its handle id) plus the
protocol method recorded at construction.  The field projection `method`
models the accessor `WolfContext::method()`, which returns `self.method`. -/
structure WolfContext where
  ctx : Nat
  method : WolfMethod
deriving DecidableEq, Repr

/-- `WolfContextBuilder` (context.rs): a newtype over `WolfContext`
(`pub struct WolfContextBuilder(WolfContext)`); `inner` models field `0`. -/
structure WolfContextBuilder where
  inner : WolfContext
deriving DecidableEq, Repr

/-- `WolfSession` as constructed by `WolfContext::new_session`: a clone of
the parent `WolfContext` plus the fresh native session handle (the crate's
`session.rs` is not among the provided sources; the fields are taken from
the construction site in `context.rs`). -/
structure WolfSession where
  ctx : WolfContext
  ssl : Nat
deriving DecidableEq, Repr

/-- `wolf_init` (lib.rs), as a function of the code returned by the native
`wolfSSL_Init`; the `panic!` arm is modelled as `none`. -/
def wolf_init (ret : Int) : Option (Except WolfInitError Unit) :=
  if ret = WOLFSSL_SUCCESS then some (.ok ())
  else if ret = BAD_MUTEX_E then some (.error .Mutex)
  else if ret = WC_INIT_E then some (.error .WolfCrypt)
  else none

/-- `wolf_cleanup` (lib.rs), as a function of the code returned by the
native `wolfSSL_Cleanup`; the `panic!` arm is modelled as `none`. -/
def wolf_cleanup (ret : Int) : Option (Except WolfCleanupError Unit) :=
  if ret = WOLFSSL_SUCCESS then some (.ok ())
  else if ret = BAD_MUTEX_E then some (.error .Mutex)
  else none

/-- `WolfContextBuilder::new` (context.rs), as a function of the pointer
returned by the native `wolfSSL_CTX_new` (0 = null): `Some` wrapping a
fresh context exactly when the pointer is non-null. -/
def WolfContextBuilder.new (method : WolfMethod) (ctxPtr : Nat) :
    Option WolfContextBuilder :=
  if ctxPtr ≠ 0 then some ⟨⟨ctxPtr, method⟩⟩ else none

/-- `WolfContextBuilder::with_root_certificate` (context.rs), as a function
of the status the native call would return.  Produces the Rust result and
the list of native calls issued (at most one). -/
def WolfContextBuilder.with_root_certificate (self : WolfContextBuilder)
    (root : RootCertificate) (status : Int) :
    Except LoadRootCertificateError WolfContextBuilder × List Effect :=
  match root with
  | .Asn1Buffer buf =>
      (if status = WOLFSSL_SUCCESS then .ok self
       else .error (.NativeError status),
       [.call (.loadVerifyBuffer self.inner.ctx buf (buf.length : Int)
          WOLFSSL_FILETYPE_ASN1)])
  | .PemBuffer buf =>
      (if status = WOLFSSL_SUCCESS then .ok self
       else .error (.NativeError status),
       [.call (.loadVerifyBuffer self.inner.ctx buf (buf.length : Int)
          WOLFSSL_FILETYPE_PEM)])
  | .PemFileOrDirectory path =>
      match pathCString path with
      | none => (.error .Path, [])
      | some s =>
          (if status = WOLFSSL_SUCCESS then .ok self
           else .error (.NativeError status),
           [.call (if path.isDir then
              .loadVerifyLocations self.inner.ctx none (some s)
            else
              .loadVerifyLocations self.inner.ctx (some s) none)])

/-- `WolfContextBuilder::with_cipher_list` (context.rs): `CString::new`
first (failure yields `None` with no native call), then the native
`wolfSSL_CTX_set_cipher_list`, succeeding only on `WOLFSSL_SUCCESS`. -/
def WolfContextBuilder.with_cipher_list (self : WolfContextBuilder)
    (cipher_list : String) (status : Int) :
    Option WolfContextBuilder × List Effect :=
  match cstring_new cipher_list with
  | none => (none, [])
  | some s =>
      (if status = WOLFSSL_SUCCESS then some self else none,
       [.call (.setCipherList self.inner.ctx s)])

/-- `WolfContextBuilder::with_certificate` (context.rs): four-way dispatch
of `Secret` to `wolfSSL_CTX_use_certificate_buffer` /
`wolfSSL_CTX_use_certificate_file` with the matching format tag; for file
variants an unrepresentable path yields `None` before any native call. -/
def WolfContextBuilder.with_certificate (self : WolfContextBuilder)
    (secret : Secret) (status : Int) :
    Option WolfContextBuilder × List Effect :=
  match secret with
  | .Asn1Buffer buf =>
      (if status = WOLFSSL_SUCCESS then some self else none,
       [.call (.useCertificateBuffer self.inner.ctx buf (buf.length : Int)
          WOLFSSL_FILETYPE_ASN1)])
  | .Asn1File path =>
      match pathCString path with
      | none => (none, [])
      | some file =>
          (if status = WOLFSSL_SUCCESS then some self else none,
           [.call (.useCertificateFile self.inner.ctx file
              WOLFSSL_FILETYPE_ASN1)])
  | .PemBuffer buf =>
      (if status = WOLFSSL_SUCCESS then some self else none,
       [.call (.useCertificateBuffer self.inner.ctx buf (buf.length : Int)
          WOLFSSL_FILETYPE_PEM)])
  | .PemFile path =>
      match pathCString path with
      | none => (none, [])
      | some file =>
          (if status = WOLFSSL_SUCCESS then some self else none,
           [.call (.useCertificateFile self.inner.ctx file
              WOLFSSL_FILETYPE_PEM)])

/-- `WolfContextBuilder::with_private_key` (context.rs): same four-way
dispatch as `with_certificate`, targeting the PrivateKey native calls. -/
def WolfContextBuilder.with_private_key (self : WolfContextBuilder)
    (secret : Secret) (status : Int) :
    Option WolfContextBuilder × List Effect :=
  match secret with
  | .Asn1Buffer buf =>
      (if status = WOLFSSL_SUCCESS then some self else none,
       [.call (.usePrivateKeyBuffer self.inner.ctx buf (buf.length : Int)
          WOLFSSL_FILETYPE_ASN1)])
  | .Asn1File path =>
      match pathCString path with
      | none => (none, [])
      | some file =>
          (if status = WOLFSSL_SUCCESS then some self else none,
           [.call (.usePrivateKeyFile self.inner.ctx file
              WOLFSSL_FILETYPE_ASN1)])
  | .PemBuffer buf =>
      (if status = WOLFSSL_SUCCESS then some self else none,
       [.call (.usePrivateKeyBuffer self.inner.ctx buf (buf.length : Int)
          WOLFSSL_FILETYPE_PEM)])
  | .PemFile path =>
      match pathCString path with
      | none => (none, [])
      | some file =>
          (if status = WOLFSSL_SUCCESS then some self else none,
           [.call (.usePrivateKeyFile self.inner.ctx file
              WOLFSSL_FILETYPE_PEM)])

/-- `WolfContextBuilder::with_secure_renegotiation` (context.rs): on a
method other than `DtlsClientV1_2`/`DtlsServerV1_2` it logs a warning and
returns `Some(self)` without any native call; otherwise it invokes the
native `wolfSSL_CTX_UseSecureRenegotiation` and succeeds only on
`WOLFSSL_SUCCESS`. -/
def WolfContextBuilder.with_secure_renegotiation (self : WolfContextBuilder)
    (status : Int) : Option WolfContextBuilder × List Effect :=
  if self.inner.method = WolfMethod.DtlsClientV1_2 ∨
     self.inner.method = WolfMethod.DtlsServerV1_2 then
    (if status = WOLFSSL_SUCCESS then some self else none,
     [.call (.useSecureRenegotiation self.inner.ctx)])
  else
    (some self, [.warnLog])

/-- `WolfContextBuilder::build` (context.rs): unconditionally returns the
wrapped `WolfContext` (field `0`); it cannot fail. -/
def WolfContextBuilder.build (self : WolfContextBuilder) : WolfContext :=
  self.inner

/-- `WolfContext::new_session` (context.rs), as a function of the pointer
returned by the native `wolfSSL_new` (0 = null): on a non-null pointer the
session stores `self.clone()` (the same shared context handle) together
with the fresh session pointer; on null it is `None`. -/
def WolfContext.new_session (self : WolfContext) (ptr : Nat) :
    Option WolfSession × List Effect :=
  (if ptr ≠ 0 then some ⟨self, ptr⟩ else none,
   [.call (.sslNew self.ctx)])

/-!
Sharing-group model of the `Arc<Mutex<*mut WOLFSSL_CTX>>` ownership token
(spec §3 "Ownership Token" / "Sharing group").  `live` is the Arc strong
count of the group, `freeCalls` the number of times `wolfSSL_CTX_free` has
been invoked on the group's handle.
-/

/-- State of one sharing group: the number of live Ownership Tokens
(`Arc::strong_count`) and how often `wolfSSL_CTX_free` has run. -/
structure GroupState where
  live : Nat
  freeCalls : Nat
deriving DecidableEq, Repr

/-- An event on a sharing group: an Arc clone (`WolfContext::clone`, also
performed by `new_session`), or a drop of one `WolfContext`. -/
inductive Ev
  | clone
  | drop
deriving DecidableEq, Repr

/-- One `WolfContext::clone`: the Arc strong count increases; no native
call is made. -/
def cloneTokenStep (s : GroupState) : GroupState :=
  ⟨s.live + 1, s.freeCalls⟩

/-- One full `drop` of a `WolfContext`, run to completion in isolation
(context.rs, `impl Drop for WolfContext`): under the handle's mutex the
code checks `Arc::strong_count(&self.ctx) == 1` and, exactly then, calls
`wolfSSL_CTX_free`; afterwards the Arc field's drop glue decrements the
strong count. -/
def dropTokenStep (s : GroupState) : GroupState :=
  if s.live = 1 then ⟨0, s.freeCalls + 1⟩ else ⟨s.live - 1, s.freeCalls⟩

/-- Run a sequence of clone/drop events, each executed atomically. -/
def runGroup : GroupState → List Ev → GroupState
  | s, [] => s
  | s, Ev.clone :: e => runGroup (cloneTokenStep s) e
  | s, Ev.drop :: e => runGroup (dropTokenStep s) e

/-- A trace is valid from a given live count when every event acts on a
group that still has at least one live token (a clone needs a live token
to clone, a drop needs a live token to drop). -/
def ValidTrace : Nat → List Ev → Prop
  | _, [] => True
  | n, Ev.clone :: e => 0 < n ∧ ValidTrace (n + 1) e
  | n, Ev.drop :: e => 0 < n ∧ ValidTrace (n - 1) e

/-- Number of clone events in a trace. -/
def clones : List Ev → Nat
  | [] => 0
  | Ev.clone :: e => clones e + 1
  | Ev.drop :: e => clones e

/-- Number of drop events in a trace. -/
def drops : List Ev → Nat
  | [] => 0
  | Ev.clone :: e => drops e
  | Ev.drop :: e => drops e + 1

/-- Exact characterization of a serialized run of drops and clones: the
live count is the arithmetic balance, and `wolfSSL_CTX_free` has run
exactly once if the balance reached zero and not at all otherwise. -/
theorem runGroup_spec : ∀ (e : List Ev) (n f : Nat), ValidTrace n e → 0 < n →
    runGroup ⟨n, f⟩ e =
      ⟨n + clones e - drops e,
       if n + clones e - drops e = 0 then f + 1 else f⟩ := by
  intro e
  induction e with
  | nil =>
      intro n f _ hn
      simp only [runGroup, clones, drops, GroupState.mk.injEq]
      refine ⟨by omega, ?_⟩
      split <;> omega
  | cons x e ih =>
      intro n f hv hn
      cases x with
      | clone =>
          obtain ⟨-, hv'⟩ := hv
          have h := ih (n + 1) f hv' (by omega)
          simp only [runGroup, cloneTokenStep, clones, drops, h]
          have heq : n + 1 + clones e - drops e =
              n + (clones e + 1) - drops e := by omega
          rw [heq]
      | drop =>
          obtain ⟨-, hv'⟩ := hv
          by_cases h1 : n = 1
          · subst h1
            cases e with
            | nil =>
                simp [runGroup, dropTokenStep, clones, drops]
            | cons y e' =>
                cases y <;> exact absurd hv'.1 (by omega)
          · have h := ih (n - 1) f hv' (by omega)
            simp only [runGroup, dropTokenStep, if_neg h1, clones, drops, h]
            have heq : n - 1 + clones e - drops e =
                n + clones e - (drops e + 1) := by omega
            rw [heq]

/-!
Interleaved model of `impl Drop for WolfContext` (context.rs) for threads
concurrently dropping tokens of one sharing group.  Each dropping thread
executes three atomic steps, matching the Rust semantics of the drop:

  pc 0: `let ctx = self.ctx.lock();` then read `Arc::strong_count` —
        acquire the handle's mutex and record the observed strong count;
  pc 1: `if <observed count> == 1 { wolfSSL_CTX_free(*ctx) }` and the end
        of the drop body, where the `MutexGuard` is released — free (when
        the recorded count was 1) and release the lock;
  pc 2: the compiler-generated drop glue that runs after the body of
        `Drop::drop` returns and drops the `Arc` field — decrement the
        strong count.  This step happens outside the mutex.
-/

/-- Shared state of the sharing group in the interleaved drop model. -/
structure DropShared where
  lockHeld : Bool
  count : Nat
  freeCalls : Nat
deriving DecidableEq, Repr

/-- Per-thread state: program counter (0–3 as described above) and the
strong count the thread observed when it held the lock. -/
structure DropThread where
  pc : Nat
  saw : Nat
deriving DecidableEq, Repr

/-- One atomic step of a dropping thread; a thread at pc 0 finding the
lock held, or a finished thread, leaves the state unchanged. -/
def dropStep (g : DropShared) (t : DropThread) : DropShared × DropThread :=
  match t.pc with
  | 0 =>
      if g.lockHeld then (g, t)
      else ({ g with lockHeld := true }, ⟨1, g.count⟩)
  | 1 =>
      ({ g with
          lockHeld := false,
          freeCalls := if t.saw = 1 then g.freeCalls + 1 else g.freeCalls },
        { t with pc := 2 })
  | 2 =>
      ({ g with count := g.count - 1 }, { t with pc := 3 })
  | _ => (g, t)

/-- The whole system: the shared group state and two dropping threads. -/
structure DropSys where
  shared : DropShared
  t0 : DropThread
  t1 : DropThread
deriving DecidableEq, Repr

/-- Schedule one step of thread `false` (= t0) or `true` (= t1). -/
def sysStep (s : DropSys) : Bool → DropSys
  | false =>
      let r := dropStep s.shared s.t0
      ⟨r.1, r.2, s.t1⟩
  | true =>
      let r := dropStep s.shared s.t1
      ⟨r.1, s.t0, r.2⟩

/-- Run a schedule (a list of thread choices). -/
def runSched (s : DropSys) : List Bool → DropSys
  | [] => s
  | b :: r => runSched (sysStep s b) r

/-- Initial state for two threads each about to drop one of the two
Ownership Tokens of a sharing group with strong count 2. -/
def dropInit : DropSys :=
  ⟨⟨false, 2, 0⟩, ⟨0, 0⟩, ⟨0, 0⟩⟩

/-- Claim C1: for every sharing group the native `wolfSSL_CTX_free` runs
exactly once, on the drop that brings the count to zero, and the lock
prevents races.  The code violates this: the `MutexGuard` in
`Drop for WolfContext` is released at the end of the drop body, but the
`Arc` strong-count decrement runs in the drop glue after the body, outside
the mutex.  This theorem evaluates the interleaved drop model at the
failing schedule: with two tokens and two concurrently dropping threads,
the schedule t0-lock/check, t0-unlock, t1-lock/check, t1-unlock, t1-dec,
t0-dec completes both drops with both threads having observed strong
count 2, so `wolfSSL_CTX_free` runs zero times even though the count
reached zero (a leak); the same two drops serialized (second conjunct)
run the free exactly once, confirming the gap is the unlocked decrement. -/
theorem C1_concurrent_final_drops_can_leak :
    runSched dropInit [false, false, true, true, true, false] =
      ⟨⟨false, 0, 0⟩, ⟨3, 2⟩, ⟨3, 2⟩⟩ ∧
    runSched dropInit [false, false, false, true, true, true] =
      ⟨⟨false, 0, 1⟩, ⟨3, 2⟩, ⟨3, 1⟩⟩ := by decide

/-- Claim C2: a `Session` returned by `new_session` holds a clone of the
Context's Ownership Token (`s.ctx = c`, the same shared handle), and while
that token is live the free cannot run: for any serialized trace of
clone/drop events on the group starting with the session's token plus `n`
other live tokens, as long as the session's token is never dropped (so at
most `n` plus the number of later clones drops occur), `wolfSSL_CTX_free`
has not been invoked. -/
theorem C2_session_keeps_context_alive :
    ∀ (c : WolfContext) (ptr : Nat) (s : WolfSession),
      (WolfContext.new_session c ptr).fst = some s →
      s.ctx = c ∧
      ∀ (n : Nat) (e : List Ev), ValidTrace (n + 1) e →
        drops e ≤ n + clones e →
        (runGroup ⟨n + 1, 0⟩ e).freeCalls = 0 := by
  intro c ptr s h
  unfold WolfContext.new_session at h
  simp only at h
  constructor
  · split at h
    · injection h with h'
      rw [← h']
    · exact absurd h (by simp)
  · intro n e hv hd
    rw [runGroup_spec e (n + 1) 0 hv (by omega)]
    simp only
    split <;> omega

/-- Witness for C2: a context with handle 1, a session allocated at
pointer 5, one other live token (`n = 1`, the caller's own context), and
the trace in which the caller drops that other token; the free has not
run. -/
theorem C2_session_keeps_context_alive_witness :
    (WolfContext.new_session ⟨1, WolfMethod.TlsClient⟩ 5).fst =
      some ⟨⟨1, WolfMethod.TlsClient⟩, 5⟩ ∧
    ValidTrace 2 [Ev.drop] ∧
    drops [Ev.drop] ≤ 1 + clones [Ev.drop] ∧
    (⟨⟨1, WolfMethod.TlsClient⟩, 5⟩ : WolfSession).ctx =
      ⟨1, WolfMethod.TlsClient⟩ ∧
    (runGroup ⟨2, 0⟩ [Ev.drop]).freeCalls = 0 := by
  have h : (WolfContext.new_session ⟨1, WolfMethod.TlsClient⟩ 5).fst =
      some ⟨⟨1, WolfMethod.TlsClient⟩, 5⟩ := by decide
  have hv : ValidTrace 2 [Ev.drop] := ⟨by omega, trivial⟩
  have hd : drops [Ev.drop] ≤ 1 + clones [Ev.drop] := by decide
  exact ⟨h, hv, hd,
    (C2_session_keeps_context_alive ⟨1, WolfMethod.TlsClient⟩ 5 _ h).1,
    (C2_session_keeps_context_alive ⟨1, WolfMethod.TlsClient⟩ 5 _ h).2
      1 [Ev.drop] hv hd⟩

/-- Claim C3: `wolf_init` maps the native success code to `Ok`, the mutex
failure code to the mutex-error variant, the crypto-init failure code to
the crypto-subsystem-error variant, and panics (modelled as `none`) on any
other code; `wolf_cleanup` maps success to `Ok`, the mutex failure code to
its mutex-error variant, and panics on any other code. -/
theorem C3_init_cleanup_code_mapping :
    wolf_init WOLFSSL_SUCCESS = some (.ok ()) ∧
    wolf_init BAD_MUTEX_E = some (.error .Mutex) ∧
    wolf_init WC_INIT_E = some (.error .WolfCrypt) ∧
    (∀ c : Int, c ≠ WOLFSSL_SUCCESS → c ≠ BAD_MUTEX_E → c ≠ WC_INIT_E →
      wolf_init c = none) ∧
    wolf_cleanup WOLFSSL_SUCCESS = some (.ok ()) ∧
    wolf_cleanup BAD_MUTEX_E = some (.error .Mutex) ∧
    (∀ c : Int, c ≠ WOLFSSL_SUCCESS → c ≠ BAD_MUTEX_E →
      wolf_cleanup c = none) := by
  refine ⟨rfl, rfl, rfl, ?_, rfl, rfl, ?_⟩
  · intro c h1 h2 h3
    simp [wolf_init, h1, h2, h3]
  · intro c h1 h2
    simp [wolf_cleanup, h1, h2]

/-- Witness for C3: the undocumented code 0 is distinct from all three
documented codes and makes both wrappers abort (modelled `none`). -/
theorem C3_init_cleanup_code_mapping_witness :
    (0 : Int) ≠ WOLFSSL_SUCCESS ∧ (0 : Int) ≠ BAD_MUTEX_E ∧
    (0 : Int) ≠ WC_INIT_E ∧
    wolf_init 0 = none ∧ wolf_cleanup 0 = none :=
  ⟨by decide, by decide, by decide,
   C3_init_cleanup_code_mapping.2.2.2.1 0 (by decide) (by decide) (by decide),
   C3_init_cleanup_code_mapping.2.2.2.2.2.2 0 (by decide) (by decide)⟩

/-- Claim C4: `WolfContextBuilder::new` and `WolfContext::new_session`
surface a null native pointer as `None` (and only then), and a non-null
pointer as `Some` of the wrapper built around it. -/
theorem C4_null_allocation_surfaced_as_none :
    ∀ (m : WolfMethod) (p : Nat) (c : WolfContext) (q : Nat),
      (WolfContextBuilder.new m p = none ↔ p = 0) ∧
      (p ≠ 0 → WolfContextBuilder.new m p = some ⟨⟨p, m⟩⟩) ∧
      ((WolfContext.new_session c q).fst = none ↔ q = 0) ∧
      (q ≠ 0 → (WolfContext.new_session c q).fst = some ⟨c, q⟩) := by
  intro m p c q
  by_cases hp : p = 0 <;> by_cases hq : q = 0 <;>
    simp [WolfContextBuilder.new, WolfContext.new_session, hp, hq]

/-- Witness for C4: non-null pointers 7 and 9 yield `Some` wrappers. -/
theorem C4_null_allocation_surfaced_as_none_witness :
    (7 : Nat) ≠ 0 ∧ (9 : Nat) ≠ 0 ∧
    WolfContextBuilder.new WolfMethod.TlsClient 7 =
      some ⟨⟨7, WolfMethod.TlsClient⟩⟩ ∧
    (WolfContext.new_session ⟨1, WolfMethod.TlsClient⟩ 9).fst =
      some ⟨⟨1, WolfMethod.TlsClient⟩, 9⟩ :=
  ⟨by decide, by decide,
   (C4_null_allocation_surfaced_as_none WolfMethod.TlsClient 7
      ⟨1, WolfMethod.TlsClient⟩ 9).2.1 (by decide),
   (C4_null_allocation_surfaced_as_none WolfMethod.TlsClient 7
      ⟨1, WolfMethod.TlsClient⟩ 9).2.2.2 (by decide)⟩

/-- Claim C5: `with_secure_renegotiation` on a builder whose method is not
DTLS 1.2 client/server returns `Some` of the unchanged builder with no
native call and a logged warning, regardless of prior configuration and of
what the native engine would return; on the two DTLS 1.2 variants it
issues the native enable call and returns `None` exactly when that call
reports non-success. -/
theorem C5_secure_renegotiation_gated_on_dtls12 :
    ∀ (b : WolfContextBuilder) (st : Int),
      (b.inner.method ≠ WolfMethod.DtlsClientV1_2 →
        b.inner.method ≠ WolfMethod.DtlsServerV1_2 →
        WolfContextBuilder.with_secure_renegotiation b st =
          (some b, [Effect.warnLog])) ∧
      ((b.inner.method = WolfMethod.DtlsClientV1_2 ∨
        b.inner.method = WolfMethod.DtlsServerV1_2) →
        (WolfContextBuilder.with_secure_renegotiation b st).snd =
          [Effect.call (NativeCall.useSecureRenegotiation b.inner.ctx)] ∧
        ((WolfContextBuilder.with_secure_renegotiation b st).fst = none ↔
          st ≠ WOLFSSL_SUCCESS) ∧
        (st = WOLFSSL_SUCCESS →
          (WolfContextBuilder.with_secure_renegotiation b st).fst = some b)) := by
  intro b st
  unfold WolfContextBuilder.with_secure_renegotiation
  constructor
  · intro h1 h2
    rw [if_neg (by tauto)]
  · intro h
    rw [if_pos h]
    by_cases hs : st = WOLFSSL_SUCCESS <;> simp [hs]

/-- Witness for C5: a TLS-client builder is untouched (warning only) even
with a failing status; a DTLS 1.2 client builder fails on status 0. -/
theorem C5_secure_renegotiation_gated_on_dtls12_witness :
    (⟨⟨1, WolfMethod.TlsClient⟩⟩ : WolfContextBuilder).inner.method ≠
      WolfMethod.DtlsClientV1_2 ∧
    (⟨⟨1, WolfMethod.TlsClient⟩⟩ : WolfContextBuilder).inner.method ≠
      WolfMethod.DtlsServerV1_2 ∧
    WolfContextBuilder.with_secure_renegotiation ⟨⟨1, WolfMethod.TlsClient⟩⟩ 0 =
      (some ⟨⟨1, WolfMethod.TlsClient⟩⟩, [Effect.warnLog]) ∧
    (WolfContextBuilder.with_secure_renegotiation
        ⟨⟨2, WolfMethod.DtlsClientV1_2⟩⟩ 0).fst = none :=
  ⟨by decide, by decide,
   (C5_secure_renegotiation_gated_on_dtls12 ⟨⟨1, WolfMethod.TlsClient⟩⟩ 0).1
     (by decide) (by decide),
   ((C5_secure_renegotiation_gated_on_dtls12
       ⟨⟨2, WolfMethod.DtlsClientV1_2⟩⟩ 0).2 (Or.inl rfl)).2.1.mpr (by decide)⟩

/-- Claim C6: `with_root_certificate` dispatches an ASN.1 or PEM buffer to
the native buffer-load call with the matching format tag; for a path it
issues the location-load call with exactly one of the file/directory
arguments populated (the directory argument iff the path is a directory);
it fails with `Path` (making no native call) when the path text is
unrepresentable, and with the native-code-derived variant when the engine
reports non-success. -/
theorem C6_root_certificate_dispatch :
    ∀ (b : WolfContextBuilder) (st : Int),
      (∀ buf,
        WolfContextBuilder.with_root_certificate b
            (RootCertificate.Asn1Buffer buf) st =
          (if st = WOLFSSL_SUCCESS then Except.ok b
           else Except.error (LoadRootCertificateError.NativeError st),
           [Effect.call (NativeCall.loadVerifyBuffer b.inner.ctx buf
              (buf.length : Int) WOLFSSL_FILETYPE_ASN1)])) ∧
      (∀ buf,
        WolfContextBuilder.with_root_certificate b
            (RootCertificate.PemBuffer buf) st =
          (if st = WOLFSSL_SUCCESS then Except.ok b
           else Except.error (LoadRootCertificateError.NativeError st),
           [Effect.call (NativeCall.loadVerifyBuffer b.inner.ctx buf
              (buf.length : Int) WOLFSSL_FILETYPE_PEM)])) ∧
      (∀ p : FsPath, pathCString p = none →
        WolfContextBuilder.with_root_certificate b
            (RootCertificate.PemFileOrDirectory p) st =
          (Except.error LoadRootCertificateError.Path, [])) ∧
      (∀ (p : FsPath) (s : String), pathCString p = some s →
        WolfContextBuilder.with_root_certificate b
            (RootCertificate.PemFileOrDirectory p) st =
          (if st = WOLFSSL_SUCCESS then Except.ok b
           else Except.error (LoadRootCertificateError.NativeError st),
           [Effect.call (NativeCall.loadVerifyLocations b.inner.ctx
              (if p.isDir then none else some s)
              (if p.isDir then some s else none))])) := by
  intro b st
  refine ⟨fun buf => rfl, fun buf => rfl, ?_, ?_⟩
  · intro p hp
    simp [WolfContextBuilder.with_root_certificate, hp]
  · intro p s hp
    by_cases hd : p.isDir <;>
      simp [WolfContextBuilder.with_root_certificate, hp, hd]

/-- Witness for C6: an unrepresentable path yields `Path` with no native
call; a representable directory path yields the location-load call with
only the directory argument populated. -/
theorem C6_root_certificate_dispatch_witness :
    pathCString ⟨none, false⟩ = none ∧
    pathCString ⟨some "/certs", true⟩ = some "/certs" ∧
    WolfContextBuilder.with_root_certificate ⟨⟨1, WolfMethod.TlsClient⟩⟩
        (RootCertificate.PemFileOrDirectory ⟨none, false⟩) 1 =
      (Except.error LoadRootCertificateError.Path, []) ∧
    WolfContextBuilder.with_root_certificate ⟨⟨1, WolfMethod.TlsClient⟩⟩
        (RootCertificate.PemFileOrDirectory ⟨some "/certs", true⟩) 1 =
      (if (1 : Int) = WOLFSSL_SUCCESS
       then Except.ok ⟨⟨1, WolfMethod.TlsClient⟩⟩
       else Except.error (LoadRootCertificateError.NativeError 1),
       [Effect.call (NativeCall.loadVerifyLocations 1
          (if (⟨some "/certs", true⟩ : FsPath).isDir then none else some "/certs")
          (if (⟨some "/certs", true⟩ : FsPath).isDir then some "/certs" else none))]) :=
  ⟨rfl, by decide,
   (C6_root_certificate_dispatch ⟨⟨1, WolfMethod.TlsClient⟩⟩ 1).2.2.1
     ⟨none, false⟩ rfl,
   (C6_root_certificate_dispatch ⟨⟨1, WolfMethod.TlsClient⟩⟩ 1).2.2.2
     ⟨some "/certs", true⟩ "/certs" (by decide)⟩

/-- Claim C7: `with_certificate` and `with_private_key` dispatch the four
`Secret` variants to the matching native call with the matching format tag
(buffers to the buffer-load call, files to the file-load call), returning
`None` exactly on native non-success or unrepresentable path text (in the
latter case before any native call). -/
theorem C7_certificate_and_key_dispatch :
    ∀ (b : WolfContextBuilder) (st : Int),
      (∀ buf,
        WolfContextBuilder.with_certificate b (Secret.Asn1Buffer buf) st =
          ((if st = WOLFSSL_SUCCESS then some b else none),
           [Effect.call (NativeCall.useCertificateBuffer b.inner.ctx buf
              (buf.length : Int) WOLFSSL_FILETYPE_ASN1)])) ∧
      (∀ buf,
        WolfContextBuilder.with_certificate b (Secret.PemBuffer buf) st =
          ((if st = WOLFSSL_SUCCESS then some b else none),
           [Effect.call (NativeCall.useCertificateBuffer b.inner.ctx buf
              (buf.length : Int) WOLFSSL_FILETYPE_PEM)])) ∧
      (∀ p : FsPath, pathCString p = none →
        WolfContextBuilder.with_certificate b (Secret.Asn1File p) st =
          (none, []) ∧
        WolfContextBuilder.with_certificate b (Secret.PemFile p) st =
          (none, [])) ∧
      (∀ (p : FsPath) (s : String), pathCString p = some s →
        WolfContextBuilder.with_certificate b (Secret.Asn1File p) st =
          ((if st = WOLFSSL_SUCCESS then some b else none),
           [Effect.call (NativeCall.useCertificateFile b.inner.ctx s
              WOLFSSL_FILETYPE_ASN1)]) ∧
        WolfContextBuilder.with_certificate b (Secret.PemFile p) st =
          ((if st = WOLFSSL_SUCCESS then some b else none),
           [Effect.call (NativeCall.useCertificateFile b.inner.ctx s
              WOLFSSL_FILETYPE_PEM)])) ∧
      (∀ buf,
        WolfContextBuilder.with_private_key b (Secret.Asn1Buffer buf) st =
          ((if st = WOLFSSL_SUCCESS then some b else none),
           [Effect.call (NativeCall.usePrivateKeyBuffer b.inner.ctx buf
              (buf.length : Int) WOLFSSL_FILETYPE_ASN1)])) ∧
      (∀ buf,
        WolfContextBuilder.with_private_key b (Secret.PemBuffer buf) st =
          ((if st = WOLFSSL_SUCCESS then some b else none),
           [Effect.call (NativeCall.usePrivateKeyBuffer b.inner.ctx buf
              (buf.length : Int) WOLFSSL_FILETYPE_PEM)])) ∧
      (∀ p : FsPath, pathCString p = none →
        WolfContextBuilder.with_private_key b (Secret.Asn1File p) st =
          (none, []) ∧
        WolfContextBuilder.with_private_key b (Secret.PemFile p) st =
          (none, [])) ∧
      (∀ (p : FsPath) (s : String), pathCString p = some s →
        WolfContextBuilder.with_private_key b (Secret.Asn1File p) st =
          ((if st = WOLFSSL_SUCCESS then some b else none),
           [Effect.call (NativeCall.usePrivateKeyFile b.inner.ctx s
              WOLFSSL_FILETYPE_ASN1)]) ∧
        WolfContextBuilder.with_private_key b (Secret.PemFile p) st =
          ((if st = WOLFSSL_SUCCESS then some b else none),
           [Effect.call (NativeCall.usePrivateKeyFile b.inner.ctx s
              WOLFSSL_FILETYPE_PEM)])) := by
  intro b st
  refine ⟨fun buf => rfl, fun buf => rfl, ?_, ?_,
          fun buf => rfl, fun buf => rfl, ?_, ?_⟩
  · intro p hp
    constructor <;> simp [WolfContextBuilder.with_certificate, hp]
  · intro p s hp
    constructor <;> simp [WolfContextBuilder.with_certificate, hp]
  · intro p hp
    constructor <;> simp [WolfContextBuilder.with_private_key, hp]
  · intro p s hp
    constructor <;> simp [WolfContextBuilder.with_private_key, hp]

/-- Witness for C7: a path with a NUL character is unrepresentable and
yields `None` with no native call from both functions; a representable
path yields the file-load calls. -/
theorem C7_certificate_and_key_dispatch_witness :
    pathCString ⟨none, false⟩ = none ∧
    pathCString ⟨some "/key.pem", false⟩ = some "/key.pem" ∧
    WolfContextBuilder.with_certificate ⟨⟨1, WolfMethod.TlsClient⟩⟩
      (Secret.Asn1File ⟨none, false⟩) 1 = (none, []) ∧
    WolfContextBuilder.with_private_key ⟨⟨1, WolfMethod.TlsClient⟩⟩
        (Secret.PemFile ⟨some "/key.pem", false⟩) 1 =
      ((if (1 : Int) = WOLFSSL_SUCCESS
        then some ⟨⟨1, WolfMethod.TlsClient⟩⟩ else none),
       [Effect.call (NativeCall.usePrivateKeyFile 1 "/key.pem"
          WOLFSSL_FILETYPE_PEM)]) :=
  ⟨rfl, by decide,
   ((C7_certificate_and_key_dispatch ⟨⟨1, WolfMethod.TlsClient⟩⟩ 1).2.2.1
     ⟨none, false⟩ rfl).1,
   ((C7_certificate_and_key_dispatch ⟨⟨1, WolfMethod.TlsClient⟩⟩
       1).2.2.2.2.2.2.2 ⟨some "/key.pem", false⟩ "/key.pem" (by decide)).2⟩

/-- A string consisting of one NUL character: valid Rust `&str` input on
which `std::ffi::CString::new` fails. -/
def nulString : String := ⟨[Char.ofNat 0]⟩

/-- Claim C8 counterexample: the claim says every path/string-taking step
reports an encoding failure distinctly from a native-level failure.  For
`with_cipher_list` this is false at concrete inputs: the NUL-containing
string (an encoding failure, no native call made) and the clean string
"A" with the engine reporting non-success (status 0) both surface to the
caller as the very same value `none`, so the two failure causes are
indistinguishable. -/
theorem C8_counterexample_cipher_failures_indistinguishable :
    containsNul nulString = true ∧
    WolfContextBuilder.with_cipher_list ⟨⟨1, WolfMethod.TlsClient⟩⟩
      nulString 1 = (none, []) ∧
    (0 : Int) ≠ WOLFSSL_SUCCESS ∧
    WolfContextBuilder.with_cipher_list ⟨⟨1, WolfMethod.TlsClient⟩⟩ "A" 0 =
      (none, [Effect.call (NativeCall.setCipherList 1 "A")]) ∧
    (WolfContextBuilder.with_cipher_list ⟨⟨1, WolfMethod.TlsClient⟩⟩
        nulString 1).fst =
      (WolfContextBuilder.with_cipher_list ⟨⟨1, WolfMethod.TlsClient⟩⟩
        "A" 0).fst := by
  refine ⟨by decide, by decide, by decide, by decide, by decide⟩

/-- Claim C8 (amended): only `with_root_certificate` reports an encoding
failure (`Path`) distinctly from a native-level failure (the
native-code-derived variant); `with_cipher_list`, `with_certificate` and
`with_private_key` report both failure causes as the same absent value
`none`, indistinguishable to the caller. -/
theorem C8_amended_distinctness_only_for_root_certificate :
    (∀ (b : WolfContextBuilder) (p : FsPath) (st : Int),
      pathCString p = none →
      (WolfContextBuilder.with_root_certificate b
        (RootCertificate.PemFileOrDirectory p) st).fst =
          Except.error LoadRootCertificateError.Path) ∧
    (∀ (b : WolfContextBuilder) (p : FsPath) (s : String) (st : Int),
      pathCString p = some s → st ≠ WOLFSSL_SUCCESS →
      (WolfContextBuilder.with_root_certificate b
        (RootCertificate.PemFileOrDirectory p) st).fst =
          Except.error (LoadRootCertificateError.NativeError st)) ∧
    (∀ st : Int,
      LoadRootCertificateError.Path ≠ LoadRootCertificateError.NativeError st) ∧
    (∀ (b : WolfContextBuilder) (s : String) (st : Int),
      containsNul s = true →
      (WolfContextBuilder.with_cipher_list b s st).fst = none) ∧
    (∀ (b : WolfContextBuilder) (s : String) (st : Int),
      containsNul s = false → st ≠ WOLFSSL_SUCCESS →
      (WolfContextBuilder.with_cipher_list b s st).fst = none) ∧
    (∀ (b : WolfContextBuilder) (p : FsPath) (st : Int),
      pathCString p = none →
      (WolfContextBuilder.with_certificate b (Secret.PemFile p) st).fst =
        none) ∧
    (∀ (b : WolfContextBuilder) (p : FsPath) (s : String) (st : Int),
      pathCString p = some s → st ≠ WOLFSSL_SUCCESS →
      (WolfContextBuilder.with_certificate b (Secret.PemFile p) st).fst =
        none) ∧
    (∀ (b : WolfContextBuilder) (p : FsPath) (st : Int),
      pathCString p = none →
      (WolfContextBuilder.with_private_key b (Secret.PemFile p) st).fst =
        none) ∧
    (∀ (b : WolfContextBuilder) (p : FsPath) (s : String) (st : Int),
      pathCString p = some s → st ≠ WOLFSSL_SUCCESS →
      (WolfContextBuilder.with_private_key b (Secret.PemFile p) st).fst =
        none) := by
  refine ⟨?_, ?_, ?_, ?_, ?_, ?_, ?_, ?_, ?_⟩
  · intro b p st hp
    simp [WolfContextBuilder.with_root_certificate, hp]
  · intro b p s st hp hs
    by_cases hd : p.isDir <;>
      simp [WolfContextBuilder.with_root_certificate, hp, hd, hs]
  · intro st h
    cases h
  · intro b s st hs
    simp [WolfContextBuilder.with_cipher_list, cstring_new, hs]
  · intro b s st hs hst
    simp [WolfContextBuilder.with_cipher_list, cstring_new, hs, hst]
  · intro b p st hp
    simp [WolfContextBuilder.with_certificate, hp]
  · intro b p s st hp hs
    simp [WolfContextBuilder.with_certificate, hp, hs]
  · intro b p st hp
    simp [WolfContextBuilder.with_private_key, hp]
  · intro b p s st hp hs
    simp [WolfContextBuilder.with_private_key, hp, hs]

/-- Witness for the amended C8, instantiated at concrete inputs: the
bad path ⟨none, false⟩, the good file path "/a", the NUL string and the
clean string "A", each with the failing status 0. -/
theorem C8_amended_distinctness_witness :
    pathCString ⟨none, false⟩ = none ∧
    pathCString ⟨some "/a", false⟩ = some "/a" ∧
    containsNul nulString = true ∧
    containsNul "A" = false ∧
    (0 : Int) ≠ WOLFSSL_SUCCESS ∧
    (WolfContextBuilder.with_root_certificate ⟨⟨1, WolfMethod.TlsClient⟩⟩
      (RootCertificate.PemFileOrDirectory ⟨none, false⟩) 0).fst =
        Except.error LoadRootCertificateError.Path ∧
    (WolfContextBuilder.with_root_certificate ⟨⟨1, WolfMethod.TlsClient⟩⟩
      (RootCertificate.PemFileOrDirectory ⟨some "/a", false⟩) 0).fst =
        Except.error (LoadRootCertificateError.NativeError 0) ∧
    LoadRootCertificateError.Path ≠ LoadRootCertificateError.NativeError 0 ∧
    (WolfContextBuilder.with_cipher_list ⟨⟨1, WolfMethod.TlsClient⟩⟩
      nulString 0).fst = none ∧
    (WolfContextBuilder.with_cipher_list ⟨⟨1, WolfMethod.TlsClient⟩⟩
      "A" 0).fst = none ∧
    (WolfContextBuilder.with_certificate ⟨⟨1, WolfMethod.TlsClient⟩⟩
      (Secret.PemFile ⟨none, false⟩) 0).fst = none ∧
    (WolfContextBuilder.with_certificate ⟨⟨1, WolfMethod.TlsClient⟩⟩
      (Secret.PemFile ⟨some "/a", false⟩) 0).fst = none ∧
    (WolfContextBuilder.with_private_key ⟨⟨1, WolfMethod.TlsClient⟩⟩
      (Secret.PemFile ⟨none, false⟩) 0).fst = none ∧
    (WolfContextBuilder.with_private_key ⟨⟨1, WolfMethod.TlsClient⟩⟩
      (Secret.PemFile ⟨some "/a", false⟩) 0).fst = none :=
  ⟨rfl, by decide, by decide, by decide, by decide,
   C8_amended_distinctness_only_for_root_certificate.1
     ⟨⟨1, WolfMethod.TlsClient⟩⟩ ⟨none, false⟩ 0 rfl,
   C8_amended_distinctness_only_for_root_certificate.2.1
     ⟨⟨1, WolfMethod.TlsClient⟩⟩ ⟨some "/a", false⟩ "/a" 0 (by decide)
     (by decide),
   C8_amended_distinctness_only_for_root_certificate.2.2.1 0,
   C8_amended_distinctness_only_for_root_certificate.2.2.2.1
     ⟨⟨1, WolfMethod.TlsClient⟩⟩ nulString 0 (by decide),
   C8_amended_distinctness_only_for_root_certificate.2.2.2.2.1
     ⟨⟨1, WolfMethod.TlsClient⟩⟩ "A" 0 (by decide) (by decide),
   C8_amended_distinctness_only_for_root_certificate.2.2.2.2.2.1
     ⟨⟨1, WolfMethod.TlsClient⟩⟩ ⟨none, false⟩ 0 rfl,
   C8_amended_distinctness_only_for_root_certificate.2.2.2.2.2.2.1
     ⟨⟨1, WolfMethod.TlsClient⟩⟩ ⟨some "/a", false⟩ "/a" 0 (by decide)
     (by decide),
   C8_amended_distinctness_only_for_root_certificate.2.2.2.2.2.2.2.1
     ⟨⟨1, WolfMethod.TlsClient⟩⟩ ⟨none, false⟩ 0 rfl,
   C8_amended_distinctness_only_for_root_certificate.2.2.2.2.2.2.2.2
     ⟨⟨1, WolfMethod.TlsClient⟩⟩ ⟨some "/a", false⟩ "/a" 0 (by decide)
     (by decide)⟩

/-- Claim C9: whenever `WolfContextBuilder::new(m)` succeeds, `build()`
(total by its type: it returns a `WolfContext`, with no failure channel)
yields a context whose `method()` is the supplied variant. -/
theorem C9_new_build_method_roundtrip :
    ∀ (m : WolfMethod) (p : Nat) (b : WolfContextBuilder),
      WolfContextBuilder.new m p = some b →
      (WolfContextBuilder.build b).method = m := by
  intro m p b h
  unfold WolfContextBuilder.new at h
  split at h
  · injection h with h'
    rw [← h']
    rfl
  · exact absurd h (by simp)

/-- Witness for C9: building from a successful `new` at pointer 3 with
the DTLS-server method returns that method. -/
theorem C9_new_build_method_roundtrip_witness :
    WolfContextBuilder.new WolfMethod.DtlsServer 3 =
      some ⟨⟨3, WolfMethod.DtlsServer⟩⟩ ∧
    (WolfContextBuilder.build ⟨⟨3, WolfMethod.DtlsServer⟩⟩).method =
      WolfMethod.DtlsServer :=
  ⟨by decide,
   C9_new_build_method_roundtrip WolfMethod.DtlsServer 3
     ⟨⟨3, WolfMethod.DtlsServer⟩⟩ (by decide)⟩

/-- Claim C10: every configuration step that succeeds returns the very
builder it consumed — same wrapped `WolfContext`, hence the same shared
handle (no new allocation, no change to the sharing group) and the same
recorded method; any other outcome is a reported failure, never a
modified wrapper. -/
theorem C10_config_steps_preserve_wrapper :
    ∀ (b : WolfContextBuilder) (st : Int),
      (∀ root,
        (WolfContextBuilder.with_root_certificate b root st).fst =
            Except.ok b ∨
        ∃ e, (WolfContextBuilder.with_root_certificate b root st).fst =
            Except.error e) ∧
      (∀ s, (WolfContextBuilder.with_cipher_list b s st).fst = some b ∨
        (WolfContextBuilder.with_cipher_list b s st).fst = none) ∧
      (∀ sec, (WolfContextBuilder.with_certificate b sec st).fst = some b ∨
        (WolfContextBuilder.with_certificate b sec st).fst = none) ∧
      (∀ sec, (WolfContextBuilder.with_private_key b sec st).fst = some b ∨
        (WolfContextBuilder.with_private_key b sec st).fst = none) ∧
      ((WolfContextBuilder.with_secure_renegotiation b st).fst = some b ∨
        (WolfContextBuilder.with_secure_renegotiation b st).fst = none) := by
  intro b st
  refine ⟨?_, ?_, ?_, ?_, ?_⟩
  · intro root
    cases root with
    | Asn1Buffer buf =>
        by_cases hs : st = WOLFSSL_SUCCESS <;>
          simp [WolfContextBuilder.with_root_certificate, hs]
    | PemBuffer buf =>
        by_cases hs : st = WOLFSSL_SUCCESS <;>
          simp [WolfContextBuilder.with_root_certificate, hs]
    | PemFileOrDirectory p =>
        cases hp : pathCString p with
        | none => simp [WolfContextBuilder.with_root_certificate, hp]
        | some s =>
            by_cases hs : st = WOLFSSL_SUCCESS <;>
              simp [WolfContextBuilder.with_root_certificate, hp, hs]
  · intro s
    cases hc : cstring_new s with
    | none => simp [WolfContextBuilder.with_cipher_list, hc]
    | some cs =>
        by_cases hs : st = WOLFSSL_SUCCESS <;>
          simp [WolfContextBuilder.with_cipher_list, hc, hs]
  · intro sec
    cases sec with
    | Asn1Buffer buf =>
        by_cases hs : st = WOLFSSL_SUCCESS <;>
          simp [WolfContextBuilder.with_certificate, hs]
    | PemBuffer buf =>
        by_cases hs : st = WOLFSSL_SUCCESS <;>
          simp [WolfContextBuilder.with_certificate, hs]
    | Asn1File p =>
        cases hp : pathCString p with
        | none => simp [WolfContextBuilder.with_certificate, hp]
        | some s =>
            by_cases hs : st = WOLFSSL_SUCCESS <;>
              simp [WolfContextBuilder.with_certificate, hp, hs]
    | PemFile p =>
        cases hp : pathCString p with
        | none => simp [WolfContextBuilder.with_certificate, hp]
        | some s =>
            by_cases hs : st = WOLFSSL_SUCCESS <;>
              simp [WolfContextBuilder.with_certificate, hp, hs]
  · intro sec
    cases sec with
    | Asn1Buffer buf =>
        by_cases hs : st = WOLFSSL_SUCCESS <;>
          simp [WolfContextBuilder.with_private_key, hs]
    | PemBuffer buf =>
        by_cases hs : st = WOLFSSL_SUCCESS <;>
          simp [WolfContextBuilder.with_private_key, hs]
    | Asn1File p =>
        cases hp : pathCString p with
        | none => simp [WolfContextBuilder.with_private_key, hp]
        | some s =>
            by_cases hs : st = WOLFSSL_SUCCESS <;>
              simp [WolfContextBuilder.with_private_key, hp, hs]
    | PemFile p =>
        cases hp : pathCString p with
        | none => simp [WolfContextBuilder.with_private_key, hp]
        | some s =>
            by_cases hs : st = WOLFSSL_SUCCESS <;>
              simp [WolfContextBuilder.with_private_key, hp, hs]
  · unfold WolfContextBuilder.with_secure_renegotiation
    by_cases hm : b.inner.method = WolfMethod.DtlsClientV1_2 ∨
        b.inner.method = WolfMethod.DtlsServerV1_2
    · by_cases hs : st = WOLFSSL_SUCCESS <;> simp [hm, hs]
    · simp [hm]
